import Mathlib

/-!
Verification of the SQL complexity analyzer (conversion-complexity and
structural-complexity scoring engines).

The Python sources are embedded shallowly:
* strings are `List Char` (with `String` wrappers where convenient);
  Python's `str.upper`, `\s`, `\w`, `isalnum` are modelled on their ASCII
  behaviour, which covers every pattern and input the engines manipulate;
* Python `int` is `Int`, `float` score arithmetic is exact `Rat`
  (binary-float rounding artifacts are not modelled);
* a compiled `re` pattern object is modelled as its observable behaviour,
  a function `String -> List String` standing for `pattern.findall`
  (the group/tuple munging of `_count_pattern_matches` is folded into that
  model, it only affects sample strings, never counts);
* the handful of concrete regexes the engines apply to SQL text
  (preprocessing substitutions, the metric-scanner patterns) are translated
  into explicit deterministic scanners that follow the behaviour of the
  Python `re` engine on those patterns (leftmost match, non-overlapping
  continuation after each match, greedy repetition where backtracking is
  provably irrelevant for the given pattern);
* file IO / YAML / JSON loading is out of scope: the analysis functions take
  the already-parsed data, as the spec prescribes;
* the process-wide `rule_match_counts` statistics dict (used only for the
  top-20 report) is not modelled; no claim mentions it.
-/

/-! ### Character classes (ASCII model of Python's classes) -/

/-- Python's `\s` class and `str.strip` / `str.split()` whitespace. -/
def isPySpace (c : Char) : Bool :=
  c = ' ' || c = '\t' || c = '\n' || c = '\r' || c = '\x0b' || c = '\x0c'

def isAsciiAlpha (c : Char) : Bool :=
  ('A' ≤ c && c ≤ 'Z') || ('a' ≤ c && c ≤ 'z')

def isAsciiDigit (c : Char) : Bool :=
  '0' ≤ c && c ≤ '9'

/-- Python's `str.isalnum` (ASCII model). -/
def isAlnumChar (c : Char) : Bool :=
  isAsciiAlpha c || isAsciiDigit c

/-- Python's `\w` class: alphanumeric or underscore. -/
def isWordChar (c : Char) : Bool :=
  isAlnumChar c || c = '_'

/-- The `[\w.]` class used by the table-extraction regexes. -/
def isWordDotChar (c : Char) : Bool :=
  isWordChar c || c = '.'

/-- Python's `str.upper` on a character sequence (ASCII model). -/
def upStr (l : List Char) : List Char :=
  l.map Char.toUpper

/-- Python's `str.lower` on a string (ASCII model). -/
def strLower (s : String) : String :=
  ⟨s.data.map Char.toLower⟩

/-- Python's `str.upper` on a string (ASCII model). -/
def strUpper (s : String) : String :=
  ⟨s.data.map Char.toUpper⟩

/-- First index of `needle` as a contiguous substring of `hay`
(Python `str.find`, with `none` for `-1`). -/
def findSub? (needle : List Char) : List Char → Option Nat
  | [] => if needle.isPrefixOf [] then some 0 else none
  | c :: t =>
    if needle.isPrefixOf (c :: t) then some 0
    else (findSub? needle t).map Nat.succ

/-- Whether `needle` occurs as a contiguous substring of `hay`. -/
def containsSub (needle hay : List Char) : Bool :=
  (findSub? needle hay).isSome

/-! ### Preprocessing (`_preprocess_sql`, identical in both engines)

`re.sub(r'<!\[CDATA\[(.*?)\]\]>', r'\1', sql, flags=re.DOTALL)`:
at each position, a match requires the literal opener `<![CDATA[` and a
later `]]>`; the lazy group stops at the first `]]>`; scanning resumes
after the match (the replacement text is not rescanned). -/

/-- Match attempt of the CDATA pattern at the head of the list: returns
the group text together with the total matched length. -/
def cdataAt (l : List Char) : Option (List Char × Nat) :=
  if ("<![CDATA[".data).isPrefixOf l then
    match findSub? ("]]>".data) (l.drop 9) with
    | some k => some ((l.drop 9).take k, 9 + k + 3)
    | none => none
  else none

/-- Substitution scan: `skip` counts characters of the current match still
to pass over before scanning resumes (re.sub continues after each match). -/
def cdataSubGo : List Char → Nat → List Char
  | [], _ => []
  | _ :: cs, skip + 1 => cdataSubGo cs skip
  | c :: cs, 0 =>
    match cdataAt (c :: cs) with
    | some (grp, n) => grp ++ cdataSubGo cs (n - 1)
    | none => c :: cdataSubGo cs 0

def cdataSub (l : List Char) : List Char :=
  cdataSubGo l 0

/-- The templating-tag keywords, in the pattern's alternation order
(none is a prefix of another, so at most one can match at a position). -/
def tagKws : List (List Char) :=
  ["if", "choose", "when", "otherwise", "foreach", "where", "set", "trim"].map String.data

/-- Case-insensitive keyword-alternation match at the head of `l`:
returns the length of the matched keyword. -/
def matchKw : List (List Char) → List Char → Option Nat
  | [], _ => none
  | k :: ks, l =>
    if upStr (l.take k.length) = upStr k then some k.length else matchKw ks l

/-- Match attempt of `<(if|choose|when|otherwise|foreach|where|set|trim)[^>]*>`
(case-insensitive) at the head: `[^>]*>` ends at the first `>` after the
keyword. Returns the total matched length. -/
def openTagAt (l : List Char) : Option Nat :=
  match l with
  | '<' :: rest =>
    match matchKw tagKws rest with
    | some n =>
      match (rest.drop n).findIdx? (· = '>') with
      | some j => some (1 + n + j + 1)
      | none => none
    | none => none
  | _ => none

/-- `re.sub(r'<(if|choose|when|otherwise|foreach|where|set|trim)[^>]*>', ' ', sql)`. -/
def openTagSubGo : List Char → Nat → List Char
  | [], _ => []
  | _ :: cs, skip + 1 => openTagSubGo cs skip
  | c :: cs, 0 =>
    match openTagAt (c :: cs) with
    | some n => ' ' :: openTagSubGo cs (n - 1)
    | none => c :: openTagSubGo cs 0

def openTagSub (l : List Char) : List Char :=
  openTagSubGo l 0

/-- Match attempt of `</(if|choose|when|otherwise|foreach|where|set|trim)>`
(case-insensitive) at the head. Returns the total matched length. -/
def closeTagAt (l : List Char) : Option Nat :=
  match l with
  | '<' :: '/' :: rest =>
    match matchKw tagKws rest with
    | some n => if (rest.drop n).head? = some '>' then some (2 + n + 1) else none
    | none => none
  | _ => none

/-- `re.sub(r'</(if|choose|when|otherwise|foreach|where|set|trim)>', ' ', sql)`. -/
def closeTagSubGo : List Char → Nat → List Char
  | [], _ => []
  | _ :: cs, skip + 1 => closeTagSubGo cs skip
  | c :: cs, 0 =>
    match closeTagAt (c :: cs) with
    | some n => ' ' :: closeTagSubGo cs (n - 1)
    | none => c :: closeTagSubGo cs 0

def closeTagSub (l : List Char) : List Char :=
  closeTagSubGo l 0

/-- Match attempt of the placeholder pattern `mark` + `{[^}]+}` at the head
(`#\{[^}]+\}` and `\$\{[^}]+\}`): the marker, an opening brace, at least one
non-closing-brace character ending at the first closing brace. Returns the
total matched length. -/
def paramAt (mark : Char) (l : List Char) : Option Nat :=
  match l with
  | c0 :: c1 :: rest =>
    if c0 = mark && c1 = '\x7b' then
      let run := rest.takeWhile (· ≠ '\x7d')
      if run.length = 0 then none
      else if (rest.drop run.length).head? = some '\x7d' then
        some (2 + run.length + 1)
      else none
    else none
  | _ => none

/-- `re.sub(r'#\{[^}]+\}', '?', sql)` (and the `$` form). -/
def paramSubGo (mark : Char) : List Char → Nat → List Char
  | [], _ => []
  | _ :: cs, skip + 1 => paramSubGo mark cs skip
  | c :: cs, 0 =>
    match paramAt mark (c :: cs) with
    | some n => '?' :: paramSubGo mark cs (n - 1)
    | none => c :: paramSubGo mark cs 0

def paramSub (mark : Char) (l : List Char) : List Char :=
  paramSubGo mark l 0

/-- `re.sub(r'\s+', ' ', sql)`: every maximal whitespace run becomes one space. -/
def squeezeWsGo : List Char → Nat → List Char
  | [], _ => []
  | _ :: cs, skip + 1 => squeezeWsGo cs skip
  | c :: cs, 0 =>
    if isPySpace c then ' ' :: squeezeWsGo cs (cs.takeWhile isPySpace).length
    else c :: squeezeWsGo cs 0

def squeezeWs (l : List Char) : List Char :=
  squeezeWsGo l 0

/-- Removal of a trailing whitespace run (the trailing half of `str.strip`). -/
def dropTrailWs : List Char → List Char
  | [] => []
  | c :: cs =>
    match dropTrailWs cs with
    | [] => if isPySpace c then [] else [c]
    | r => c :: r

/-- Python `str.strip()`. -/
def pyStrip (l : List Char) : List Char :=
  dropTrailWs (l.dropWhile isPySpace)

/-- `_preprocess_sql` on character lists: CDATA unwrap, opening-tag and
closing-tag removal, `#`/`$` placeholder substitution, whitespace collapse
and strip, in the source's order. -/
def preprocessList (l : List Char) : List Char :=
  pyStrip (squeezeWs (paramSub '$' (paramSub '#' (closeTagSub (openTagSub (cdataSub l))))))

/-- `_preprocess_sql` (`SQLConversionScoringEngine` and
`SQLStructuralScoringEngine` have the identical function body). -/
def preprocess_sql (s : String) : String :=
  ⟨preprocessList s.data⟩

/-! ### Structural metrics scanner (`SQLStructuralScoringEngine._calculate_metrics`) -/

/-- Length of the leading whitespace run. -/
def wsRun (l : List Char) : Nat :=
  (l.takeWhile isPySpace).length

/-- Length of the leading `\w` run. -/
def wordRun (l : List Char) : Nat :=
  (l.takeWhile isWordChar).length

/-- Length of the leading `[\w.]` run. -/
def wordDotRun (l : List Char) : Nat :=
  (l.takeWhile isWordDotChar).length

def headIsWord (l : List Char) : Bool :=
  match l.head? with
  | some c => isWordChar c
  | none => false

def lastIsWord (l : List Char) : Bool :=
  isWordChar (l.getLastD ' ')

/-- Count of `re.findall(r'\bJOIN\b', sql, re.IGNORECASE)`: non-overlapping,
word-boundary on both sides; `prevW` records whether the preceding character
is a word character. -/
def countJoinAux : List Char → Bool → Nat
  | [], _ => 0
  | c :: cs, prevW =>
    if !prevW && upStr ((c :: cs).take 4) = "JOIN".data && !headIsWord (cs.drop 3) then
      1 + countJoinAux (cs.drop 3) true
    else countJoinAux cs (isWordChar c)
termination_by l _ => l.length
decreasing_by
  all_goals simp_all [List.length_drop] <;> omega

/-- The subquery-depth scan: on `(` whose 7-character slice spells
`(SELECT` (case-insensitively) increment and track the max; on `)` decrement
only when positive. -/
def depthScan : List Char → Int → Int → Int
  | [], _, mx => mx
  | c :: cs, cur, mx =>
    if c = '(' && upStr ((c :: cs).take 7) = "(SELECT".data then
      depthScan cs (cur + 1) (max mx (cur + 1))
    else if c = ')' && cur > 0 then
      depthScan cs (cur - 1) mx
    else
      depthScan cs cur mx

/-- `metrics['subquery_depth'] = min(max_depth, 5)` with the scan starting
from depth 0. -/
def subquery_depthList (sql : List Char) : Int :=
  min (depthScan sql 0 0) 5

/-- Python `str.split(sep)` on a character. -/
def splitOnChar (sep : Char) : List Char → List (List Char)
  | [] => [[]]
  | c :: cs =>
    if c = sep then [] :: splitOnChar sep cs
    else
      match splitOnChar sep cs with
      | [] => [[c]]
      | h :: t => (c :: h) :: t

/-- Python `str.split()` (whitespace separated, no empty tokens); `skip`
passes over the remainder of an emitted token. -/
def splitWsGo : List Char → Nat → List (List Char)
  | [], _ => []
  | _ :: cs, skip + 1 => splitWsGo cs skip
  | c :: cs, 0 =>
    if isPySpace c then splitWsGo cs 0
    else (c :: cs.takeWhile (fun x => !isPySpace x)) :: splitWsGo cs (cs.takeWhile (fun x => !isPySpace x)).length

def splitWs (l : List Char) : List (List Char) :=
  splitWsGo l 0

/-- `table_name.split('.')[-1]` (the identity when there is no dot). -/
def lastDotSegment (l : List Char) : List Char :=
  (splitOnChar '.' l).getLastD []

/-- The fixed keyword filter set of the table extractor. -/
def sqlKeywords : List (List Char) :=
  ["LATERAL", "NATURAL", "OUTER", "INNER", "LEFT", "RIGHT", "FULL", "CROSS",
   "SELECT", "WHERE", "AND", "OR", "ON", "AS", "SET", "VALUES", "INTO"].map String.data

/-- The optional alias `(?:\s+\w+)?`: consumed length (0 when absent). -/
def aliasLen (l : List Char) : Nat :=
  let w := wsRun l
  if w = 0 then 0
  else
    let a := wordRun (l.drop w)
    if a = 0 then 0 else w + a

/-- The repetition `(?:\s*,\s*[\w.]+(?:\s+\w+)?)*`: total consumed length. -/
def commaItemsLen : List Char → Nat
  | [] => 0
  | c :: cs =>
    let l := c :: cs
    let w1 := wsRun l
    match (l.drop w1).head? with
    | some ',' =>
      let r1 := l.drop (w1 + 1)
      let w2 := wsRun r1
      let t := wordDotRun (r1.drop w2)
      if t = 0 then 0
      else
        let k := w1 + 1 + w2 + t + aliasLen ((r1.drop w2).drop t)
        k + commaItemsLen (cs.drop (k - 1))
    | _ => 0
termination_by l => l.length
decreasing_by
  all_goals (simp_all [List.length_drop]; omega)

/-- Length of group 1 of the FROM-clause pattern
`[\w.]+(?:\s+\w+)?(?:\s*,\s*[\w.]+(?:\s+\w+)?)*`, assuming `r0` starts with
a `[\w.]` character. -/
def fromGroupLen (r0 : List Char) : Nat :=
  let t1 := wordDotRun r0
  let k := t1 + aliasLen (r0.drop t1)
  k + commaItemsLen (r0.drop k)

/-- `finditer` of
`\bFROM\s+(?!\s*\()([\w.]+(?:\s+\w+)?(?:\s*,\s*[\w.]+(?:\s+\w+)?)*)`:
the list of group-1 texts, left to right, non-overlapping. -/
def fromGroups : List Char → Bool → List (List Char)
  | [], _ => []
  | c :: cs, prevW =>
    if !prevW && upStr ((c :: cs).take 4) = "FROM".data then
      let after := cs.drop 3
      let w := wsRun after
      let r0 := after.drop w
      if w = 0 then fromGroups cs (isWordChar c)
      else if r0.head? = some '(' then fromGroups cs (isWordChar c)
      else if wordDotRun r0 = 0 then fromGroups cs (isWordChar c)
      else
        let g := fromGroupLen r0
        r0.take g :: fromGroups (r0.drop g) (lastIsWord (r0.take g))
    else fromGroups cs (isWordChar c)
termination_by l _ => l.length
decreasing_by
  all_goals simp_all [List.length_drop] <;> omega

/-- Splitting one FROM-clause group on commas into table tokens:
`part.strip()`, `part.split()`, keep `tokens[0]` reduced to its last
dot-segment. -/
def fromClauseNames (grp : List Char) : List (List Char) :=
  (splitOnChar ',' grp).filterMap (fun part =>
    let p := pyStrip part
    if p = [] then none
    else
      match splitWs p with
      | [] => none
      | tok :: _ => some (lastDotSegment tok))

/-- The negative lookahead `(?!LATERAL\b)` at `r0` (case-insensitive):
true when the lookahead blocks the match. -/
def lateralBlocks (r0 : List Char) : Bool :=
  upStr (r0.take 7) = "LATERAL".data && !headIsWord (r0.drop 7)

/-- `finditer` of `\bJOIN\s+(?!LATERAL\b)(?!\s*\()([\w.]+)`: group-1 texts. -/
def joinTableNames : List Char → Bool → List (List Char)
  | [], _ => []
  | c :: cs, prevW =>
    if !prevW && upStr ((c :: cs).take 4) = "JOIN".data then
      let after := cs.drop 3
      let w := wsRun after
      let r0 := after.drop w
      if w = 0 then joinTableNames cs (isWordChar c)
      else if lateralBlocks r0 then joinTableNames cs (isWordChar c)
      else if r0.head? = some '(' then joinTableNames cs (isWordChar c)
      else if wordDotRun r0 = 0 then joinTableNames cs (isWordChar c)
      else
        let t := wordDotRun r0
        r0.take t :: joinTableNames (r0.drop t) (lastIsWord (r0.take t))
    else joinTableNames cs (isWordChar c)
termination_by l _ => l.length
decreasing_by
  all_goals simp_all [List.length_drop] <;> omega

/-- `finditer` of `\bLATERAL\s*\(([^)]+)\)`: the inner texts. -/
def lateralInners : List Char → Bool → List (List Char)
  | [], _ => []
  | c :: cs, prevW =>
    if !prevW && upStr ((c :: cs).take 7) = "LATERAL".data then
      let after := cs.drop 6
      let w := wsRun after
      let r0 := after.drop w
      match r0.head? with
      | some '(' =>
        let inner := (r0.drop 1).takeWhile (· ≠ ')')
        if inner.length = 0 then lateralInners cs (isWordChar c)
        else if ((r0.drop 1).drop inner.length).head? = some ')' then
          inner :: lateralInners ((r0.drop 1).drop (inner.length + 1)) false
        else lateralInners cs (isWordChar c)
      | _ => lateralInners cs (isWordChar c)
    else lateralInners cs (isWordChar c)
termination_by l _ => l.length
decreasing_by
  all_goals simp_all [List.length_drop] <;> omega

/-- `re.findall(r'\bFROM\s+([\w.]+)', inner_sql, re.IGNORECASE)`. -/
def innerFromNames : List Char → Bool → List (List Char)
  | [], _ => []
  | c :: cs, prevW =>
    if !prevW && upStr ((c :: cs).take 4) = "FROM".data then
      let after := cs.drop 3
      let w := wsRun after
      let r0 := after.drop w
      if w = 0 then innerFromNames cs (isWordChar c)
      else if wordDotRun r0 = 0 then innerFromNames cs (isWordChar c)
      else
        let t := wordDotRun r0
        r0.take t :: innerFromNames (r0.drop t) (lastIsWord (r0.take t))
    else innerFromNames cs (isWordChar c)
termination_by l _ => l.length
decreasing_by
  all_goals simp_all [List.length_drop] <;> omega

/-- All table-name candidates from the three extraction passes, in order. -/
def tableCandidates (sql : List Char) : List (List Char) :=
  ((fromGroups sql false).map fromClauseNames).flatten
    ++ joinTableNames sql false
    ++ ((lateralInners sql false).map (fun inner => innerFromNames inner false)).flatten

/-- The `tables` set: upper-cased names, keyword-filtered, deduplicated. -/
def dedupTables : List (List Char) → List (List Char) → List (List Char)
  | acc, [] => acc
  | acc, n :: ns =>
    let u := upStr n
    if sqlKeywords.contains u || acc.contains u then dedupTables acc ns
    else dedupTables (acc ++ [u]) ns

def table_countList (sql : List Char) : Nat :=
  (dedupTables [] (tableCandidates sql)).length

/-- The top-level-FROM scan of the select-column counter: paren-depth
tracking, `FROM` at depth 0 with `isalnum` word boundaries; the loop runs
while more than 3 characters remain. Returns the offset of that `FROM`
from the scan start. -/
def findTopFromOff : List Char → Char → Int → Nat → Option Nat
  | [], _, _, _ => none
  | c :: cs, prev, depth, acc =>
    if (c :: cs).length ≤ 3 then none
    else if c = '(' then findTopFromOff cs c (depth + 1) (acc + 1)
    else if c = ')' then findTopFromOff cs c (depth - 1) (acc + 1)
    else if depth = 0 && upStr ((c :: cs).take 4) = "FROM".data then
      if !isAlnumChar prev && !(((c :: cs).drop 4).head?.elim false isAlnumChar) then
        some acc
      else findTopFromOff cs c depth (acc + 1)
    else findTopFromOff cs c depth (acc + 1)

/-- `re.sub(r'^\s*(ALL\s+)?DISTINCT\s+', '', clause, flags=re.IGNORECASE)`. -/
def stripDistinct (l : List Char) : List Char :=
  let l1 := l.dropWhile isPySpace
  let withAll : Option (List Char) :=
    if upStr (l1.take 3) = "ALL".data then
      let r := l1.drop 3
      let w := wsRun r
      if w = 0 then none
      else
        let r2 := r.drop w
        if upStr (r2.take 8) = "DISTINCT".data then
          let r3 := r2.drop 8
          let w2 := wsRun r3
          if w2 = 0 then none else some (r3.drop w2)
        else none
    else none
  match withAll with
  | some res => res
  | none =>
    if upStr (l1.take 8) = "DISTINCT".data then
      let r := l1.drop 8
      let w := wsRun r
      if w = 0 then l else r.drop w
    else l

/-- `re.match(r'^\s*\*\s*$', clause)`. -/
def isStarOnly (l : List Char) : Bool :=
  match l.dropWhile isPySpace with
  | '*' :: rest => rest.dropWhile isPySpace = ([] : List Char)
  | _ => false

/-- `re.match(r'^\s*\w+\.\*\s*$', clause)`. -/
def isDotStar (l : List Char) : Bool :=
  let l1 := l.dropWhile isPySpace
  let w := wordRun l1
  if w = 0 then false
  else
    match l1.drop w with
    | '.' :: '*' :: rest => rest.dropWhile isPySpace = ([] : List Char)
    | _ => false

/-- Leftmost match of `\([^()]*\)`: splits the list into the part before
the match and the part after it. -/
def parenGroupSplit : List Char → Option (List Char × List Char)
  | [] => none
  | '(' :: cs =>
    let run := cs.takeWhile (fun c => c ≠ '(' && c ≠ ')')
    if (cs.drop run.length).head? = some ')' then
      some ([], cs.drop (run.length + 1))
    else
      match parenGroupSplit cs with
      | some (p, a) => some ('(' :: p, a)
      | none => none
  | c :: cs =>
    match parenGroupSplit cs with
    | some (p, a) => some (c :: p, a)
    | none => none

/-- The bounded placeholder loop: up to `n` (source: 50) innermost
parenthesized groups are replaced by `__PH__`. -/
def maskParens : Nat → List Char → List Char
  | 0, l => l
  | n + 1, l =>
    match parenGroupSplit l with
    | none => l
    | some (p, a) => maskParens n (p ++ "__PH__".data ++ a)

/-- `metrics['select_column_count']`: the sentinel `-1` for `*`/`alias.*`
select lists, otherwise masked-comma count plus one; `0` when there is no
`SELECT` or no top-level `FROM`. -/
def select_column_countList (sql : List Char) : Int :=
  match findSub? ("SELECT".data) (upStr sql) with
  | none => 0
  | some ss =>
    let start_pos := ss + 6
    let rem := sql.drop start_pos
    let prev := (sql.drop (ss + 5)).headD ' '
    match findTopFromOff rem prev 0 0 with
    | none => 0
    | some off =>
      let select_clause := pyStrip (rem.take off)
      let clean := stripDistinct select_clause
      if isStarOnly clean then -1
      else if isDotStar clean then -1
      else (maskParens 50 clean).count ',' + 1

/-- The WHERE-clause scan: a subquery-depth counter (increment on `(`
followed, after ` \t\n` characters, by `SELECT`; decrement on `)` when
positive), counting `AND `/`OR ` only at depth 0. -/
def whereScan : List Char → Int → Nat → Nat
  | [], _, acc => acc
  | c :: cs, depth, acc =>
    if c = '(' then
      let j := (cs.takeWhile (fun x => x = ' ' || x = '\t' || x = '\n')).length
      if upStr ((cs.drop j).take 6) = "SELECT".data then
        whereScan cs (depth + 1) acc
      else whereScan cs depth acc
    else if c = ')' && depth > 0 then whereScan cs (depth - 1) acc
    else if depth = 0 && (upStr ((c :: cs).take 4) = "AND ".data
        || upStr ((c :: cs).take 3) = "OR ".data) then
      whereScan cs depth (acc + 1)
    else whereScan cs depth acc

/-- `metrics['where_condition_count']`: clause from after `WHERE` to the
first `GROUP BY`/`ORDER BY`/`HAVING`/`LIMIT` (or end); boolean-op count
plus one when the stripped clause is non-empty, else 0. -/
def where_condition_countList (sql : List Char) : Nat :=
  let su := upStr sql
  match findSub? ("WHERE".data) su with
  | none => 0
  | some ws_pos =>
    let endKws := ["GROUP BY", "ORDER BY", "HAVING", "LIMIT"].map String.data
    let where_end := endKws.foldl (fun acc kw =>
        match findSub? kw (su.drop ws_pos) with
        | some p => min acc (ws_pos + p)
        | none => acc) sql.length
    let where_clause := (sql.drop (ws_pos + 5)).take (where_end - (ws_pos + 5))
    if pyStrip where_clause = [] then 0
    else whereScan where_clause 0 0 + 1

/-- `QueryMetrics` (structural variant): the metric-name-to-value mapping
produced by `_calculate_metrics`. -/
structure QueryMetrics where
  length : Nat
  join_count : Nat
  subquery_depth : Int
  table_count : Nat
  select_column_count : Int
  where_condition_count : Nat
  deriving Repr, DecidableEq

def calculateMetricsList (sql : List Char) : QueryMetrics :=
  { length := sql.length
    join_count := countJoinAux sql false
    subquery_depth := subquery_depthList sql
    table_count := table_countList sql
    select_column_count := select_column_countList sql
    where_condition_count := where_condition_countList sql }

/-- `SQLStructuralScoringEngine._calculate_metrics`. -/
def calculate_metrics (s : String) : QueryMetrics :=
  calculateMetricsList s.data

/-! ### Matching infrastructure shared by both engines -/

/-- Observable behaviour of a compiled `re` pattern object: the `findall`
result on a given string. The group-tuple munging of
`_count_pattern_matches` only shapes the sample strings, never the count,
so it is folded into this model. -/
def Matcher : Type := String → List String

/-- `_count_pattern_matches`: number of non-overlapping matches and at most
5 sample strings. -/
def count_pattern_matches (sql : String) (pattern : Matcher) : Nat × List String :=
  let found := pattern sql
  (found.length, found.take 5)

/-- Python `round(x, 2)` modelled exactly on rationals: round half to even
at two decimals. -/
def roundHalfEven (q : ℚ) : Int :=
  let f : Int := ⌊q⌋
  let r : ℚ := q - f
  if r < 1/2 then f
  else if 1/2 < r then f + 1
  else if f % 2 = 0 then f else f + 1

def round2 (q : ℚ) : ℚ :=
  (roundHalfEven (q * 100) : ℚ) / 100

/-- A query record of the corpus: `{name|type, sql}` with every key
optional (Python `dict.get`). -/
structure QueryRecord where
  name : Option String
  type : Option String
  sql : Option String

/-- A file record of the corpus: `{file_name, file_path, queries}`. -/
structure FileData where
  file_name : Option String
  file_path : Option String
  queries : List QueryRecord

/-! ### Structural scoring engine (`SQLStructuralScoringEngine`)

The compiled rule lists (`common_rules`, `dbms_rules`) are engine state
built once per run; the scoring functions below take them as arguments.
`metadata` (wall-clock timestamp, file paths) and the process-wide
`rule_statistics` top-20 tally are not modelled. -/

namespace Structural

structure RuleMatch where
  rule_id : String
  rule_name : String
  weight : Int
  category : String
  subcategory : String
  match_count : Nat := 1
  matched_patterns : List String := []

/-- A compiled rule dict as produced by `_compile_rule`. -/
structure CompiledRule where
  id : String
  name : String
  weight : Int
  detection_method : String
  pattern : String
  logic : String
  category : String
  subcategory : String
  note : String
  compiled_pattern : Option Matcher

/-- `weight * match_count` of one rule match, as score arithmetic. -/
def rmScore (r : RuleMatch) : ℚ :=
  (r.weight : ℚ) * (r.match_count : ℚ)

/-- `_apply_metric_rules`: the bucketed synthetic rule matches. -/
def apply_metric_rules (metrics : QueryMetrics) : List RuleMatch :=
  let lengthRule : RuleMatch :=
    if metrics.length < 200 then ⟨"c_len_short", "짧은 쿼리", 0, "query_metric", "length", 1, []⟩
    else if metrics.length < 500 then ⟨"c_len_medium", "중간 쿼리", 5, "query_metric", "length", 1, []⟩
    else if metrics.length < 1000 then ⟨"c_len_long", "긴 쿼리", 10, "query_metric", "length", 1, []⟩
    else if metrics.length < 2000 then ⟨"c_len_very_long", "매우 긴 쿼리", 15, "query_metric", "length", 1, []⟩
    else ⟨"c_len_huge", "초대형 쿼리", 20, "query_metric", "length", 1, []⟩
  let joinRule : RuleMatch :=
    if metrics.join_count = 0 then ⟨"c_join_0", "JOIN 없음", 0, "structural", "join", 1, []⟩
    else if metrics.join_count = 1 then ⟨"c_join_1", "JOIN 1개", 5, "structural", "join", 1, []⟩
    else if metrics.join_count ≤ 3 then ⟨"c_join_2_3", "JOIN 2-3개", 10, "structural", "join", 1, []⟩
    else if metrics.join_count ≤ 5 then ⟨"c_join_4_5", "JOIN 4-5개", 15, "structural", "join", 1, []⟩
    else ⟨"c_join_6plus", "JOIN 6개 이상", 20, "structural", "join", 1, []⟩
  let subqRule : RuleMatch :=
    if metrics.subquery_depth = 0 then ⟨"c_subq_0", "서브쿼리 없음", 0, "structural", "subquery", 1, []⟩
    else if metrics.subquery_depth = 1 then ⟨"c_subq_depth_1", "서브쿼리 깊이 1", 10, "structural", "subquery", 1, []⟩
    else if metrics.subquery_depth = 2 then ⟨"c_subq_depth_2", "서브쿼리 깊이 2", 20, "structural", "subquery", 1, []⟩
    else ⟨"c_subq_depth_3plus", "서브쿼리 깊이 3+", 30, "structural", "subquery", 1, []⟩
  let tableRules : List RuleMatch :=
    if 3 ≤ metrics.table_count ∧ metrics.table_count ≤ 5 then
      [⟨"c_tables_3_5", "테이블 3-5개", 5, "query_metric", "tables", 1, []⟩]
    else if 6 ≤ metrics.table_count ∧ metrics.table_count ≤ 10 then
      [⟨"c_tables_6_10", "테이블 6-10개", 10, "query_metric", "tables", 1, []⟩]
    else if 11 ≤ metrics.table_count then
      [⟨"c_tables_11plus", "테이블 11개 이상", 15, "query_metric", "tables", 1, []⟩]
    else []
  let colRules : List RuleMatch :=
    if metrics.select_column_count = -1 then
      [⟨"c_select_star", "SELECT *", 5, "clause", "select", 1, []⟩]
    else if 6 ≤ metrics.select_column_count ∧ metrics.select_column_count ≤ 10 then
      [⟨"c_select_cols_6_10", "컬럼 6-10개", 5, "clause", "select", 1, []⟩]
    else if 11 ≤ metrics.select_column_count ∧ metrics.select_column_count ≤ 20 then
      [⟨"c_select_cols_11_20", "컬럼 11-20개", 10, "clause", "select", 1, []⟩]
    else if 21 ≤ metrics.select_column_count then
      [⟨"c_select_cols_21plus", "컬럼 21개 이상", 15, "clause", "select", 1, []⟩]
    else []
  let condRules : List RuleMatch :=
    if 4 ≤ metrics.where_condition_count ∧ metrics.where_condition_count ≤ 6 then
      [⟨"c_where_cond_4_6", "조건 4-6개", 5, "clause", "where", 1, []⟩]
    else if 7 ≤ metrics.where_condition_count ∧ metrics.where_condition_count ≤ 10 then
      [⟨"c_where_cond_7_10", "조건 7-10개", 10, "clause", "where", 1, []⟩]
    else if 11 ≤ metrics.where_condition_count then
      [⟨"c_where_cond_11plus", "조건 11개 이상", 15, "clause", "where", 1, []⟩]
    else []
  [lengthRule, joinRule, subqRule] ++ tableRules ++ colRules ++ condRules

/-- The body of the per-rule loops of `score_query`: rules with a `None`
compiled pattern are skipped, a `RuleMatch` is produced exactly when the
match count is positive. -/
def ruleMatchesOf (rules : List CompiledRule) (preprocessed_sql : String) : List RuleMatch :=
  rules.filterMap (fun rule =>
    match rule.compiled_pattern with
    | none => none
    | some p =>
      let mc := (count_pattern_matches preprocessed_sql p).1
      let mp := (count_pattern_matches preprocessed_sql p).2
      if mc > 0 then
        some ⟨rule.id, rule.name, rule.weight, rule.category, rule.subcategory, mc, mp⟩
      else none)

/-- The per-category accumulation `category_scores[category] += weight*count`
as a total mapping (absent category = 0, matching `defaultdict(float)` /
`dict.get(category, 0)`). -/
def categoryScore (matched_rules : List RuleMatch) (cat : String) : ℚ :=
  ((matched_rules.filter (fun r => r.category = cat)).map rmScore).sum

def CATEGORY_WEIGHTS : List (String × ℚ) :=
  [("structural", 30/100), ("clause", 15/100), ("function_expression", 20/100),
   ("query_metric", 10/100), ("dbms_specific", 25/100)]

def CATEGORY_MAX_SCORES : List (String × ℚ) :=
  [("structural", 100), ("clause", 50), ("function_expression", 80),
   ("query_metric", 40), ("dbms_specific", 100)]

/-- `_calculate_normalized_score`: per-category division by the fixed
maximum, scale by 10, clamp at 10, weighted combination. -/
def calculate_normalized_score (category_scores : String → ℚ) : ℚ :=
  (CATEGORY_WEIGHTS.map (fun cw =>
    let raw_score := category_scores cw.1
    let max_score := (CATEGORY_MAX_SCORES.lookup cw.1).getD 100
    min (raw_score / max_score * 10) 10 * cw.2)).sum

def COMPLEXITY_LEVELS : List (String × ℚ × ℚ) :=
  [("매우 단순", 0, 2), ("단순", 2, 4), ("보통", 4, 6), ("복잡", 6, 8), ("매우 복잡", 8, 10)]

/-- `_get_complexity_level`: first band with `min <= score < max`, with the
highest label as the fall-through value. -/
def get_complexity_level (score : ℚ) : String :=
  match COMPLEXITY_LEVELS.find? (fun lv => decide (lv.2.1 ≤ score) && decide (score < lv.2.2)) with
  | some lv => lv.1
  | none => "매우 복잡"

structure QueryScore where
  query_name : String
  sql : String
  raw_score : ℚ
  normalized_score : ℚ
  complexity_level : String
  matched_rules : List RuleMatch
  category_scores : String → ℚ
  metrics : QueryMetrics

/-- `SQLStructuralScoringEngine.score_query`. -/
def score_query (common_rules dbms_rules : List CompiledRule) (sql : String)
    (query_name : String := "") : QueryScore :=
  let preprocessed_sql := preprocess_sql sql
  let metrics := calculate_metrics preprocessed_sql
  let matched_rules :=
    apply_metric_rules metrics
      ++ ruleMatchesOf common_rules preprocessed_sql
      ++ ruleMatchesOf dbms_rules preprocessed_sql
  let category_scores := categoryScore matched_rules
  let raw_score := (matched_rules.map rmScore).sum
  let normalized_score := calculate_normalized_score category_scores
  let complexity_level := get_complexity_level normalized_score
  { query_name := query_name
    sql := if sql.length > 500 then (⟨sql.data.take 500⟩ : String) ++ "..." else sql
    raw_score := raw_score
    normalized_score := round2 normalized_score
    complexity_level := complexity_level
    matched_rules := matched_rules
    category_scores := category_scores
    metrics := metrics }

structure FileScore where
  file_name : String
  file_path : String
  query_count : Nat
  total_raw_score : ℚ
  avg_score : ℚ
  avg_normalized_score : ℚ
  complexity_distribution : String → Nat
  queries : List QueryScore

/-- `SQLStructuralScoringEngine.analyze_file`: queries with empty/missing
SQL are skipped; averages guard against an empty score list. -/
def analyze_file (common_rules dbms_rules : List CompiledRule) (file_data : FileData) : FileScore :=
  let query_scores := file_data.queries.filterMap (fun query =>
    let query_name := query.name.getD (query.type.getD "unknown")
    let sql := query.sql.getD ""
    if sql = "" then none
    else some (score_query common_rules dbms_rules sql query_name))
  let total_raw := (query_scores.map (·.raw_score)).sum
  let avg_score := if query_scores.length = 0 then 0 else total_raw / query_scores.length
  let avg_normalized :=
    if query_scores.length = 0 then 0
    else (query_scores.map (·.normalized_score)).sum / query_scores.length
  { file_name := file_data.file_name.getD ""
    file_path := file_data.file_path.getD ""
    query_count := query_scores.length
    total_raw_score := round2 total_raw
    avg_score := round2 avg_score
    avg_normalized_score := round2 avg_normalized
    complexity_distribution := fun lvl =>
      (query_scores.filter (fun q => q.complexity_level = lvl)).length
    queries := query_scores }

structure Summary where
  total_queries : Nat
  total_raw_score : ℚ
  average_raw_score : ℚ
  average_normalized_score : ℚ
  overall_complexity_level : String
  complexity_distribution : String → Nat

structure AnalysisResult where
  summary : Summary
  files : List FileScore

/-- `SQLStructuralScoringEngine.analyze_json_files` on the already-parsed
contents of the input JSON files (each element is one file's `files` list). -/
def analyze_json_files (common_rules dbms_rules : List CompiledRule)
    (datas : List (List FileData)) : AnalysisResult :=
  let all_files := (datas.map (fun files => files.map (analyze_file common_rules dbms_rules))).flatten
  let total_queries := (all_files.map (·.query_count)).sum
  let total_score := (all_files.map (·.total_raw_score)).sum
  let total_normalized := (all_files.map (fun f => f.avg_normalized_score * (f.query_count : ℚ))).sum
  let avg_score := if total_queries > 0 then total_score / (total_queries : ℚ) else 0
  let avg_normalized := if total_queries > 0 then total_normalized / (total_queries : ℚ) else 0
  { summary :=
      { total_queries := total_queries
        total_raw_score := round2 total_score
        average_raw_score := round2 avg_score
        average_normalized_score := round2 avg_normalized
        overall_complexity_level := get_complexity_level avg_normalized
        complexity_distribution := fun lvl =>
          (all_files.map (fun f => f.complexity_distribution lvl)).sum }
    files := all_files }

/-- A raw rule entry of the YAML catalog with the `rule.get` defaults of
`_compile_rule` already applied. -/
structure RawRule where
  id : String := ""
  name : String := ""
  weight : Int := 0
  detection_method : String := "regex"
  pattern : String := ""
  logic : String := ""
  note : String := ""
  deriving DecidableEq

/-- The external `re` library as used by rule compilation: `compileRegex`
is `re.compile(p, re.IGNORECASE | re.DOTALL)`, `compileKeyword` is
`re.compile(r'\b' + re.escape(p) + r'\b', re.IGNORECASE)`; `none` models a
raised `re.error` (the rule becomes inert). -/
structure RegexLib where
  compileRegex : String → Option Matcher
  compileKeyword : String → Option Matcher

/-- `_compile_rule` (the function always returns the dict, so the callers'
`if compiled_rule:` guard never filters anything). -/
def compile_rule (lib : RegexLib) (rule : RawRule) (category subcategory : String) : CompiledRule :=
  { id := rule.id
    name := rule.name
    weight := rule.weight
    detection_method := rule.detection_method
    pattern := rule.pattern
    logic := rule.logic
    category := category
    subcategory := subcategory
    note := rule.note
    compiled_pattern :=
      if rule.detection_method = "regex" ∧ rule.pattern ≠ "" then lib.compileRegex rule.pattern
      else if rule.detection_method = "keyword" ∧ rule.pattern ≠ "" then lib.compileKeyword rule.pattern
      else none }

/-- `_compile_dbms_rules`: the `dbms_specific_rules` mapping is an
association list of section key to section value, a value being
`some rules` for a YAML list and `none` for a non-list value (the
`isinstance` guard). The exact, lower-cased, then upper-cased `source_db`
token is tried; the first key present is used and the search stops
(`break`), even when its value is not a list. -/
def compile_dbms_rules (lib : RegexLib)
    (dbms_specific_rules : List (String × Option (List RawRule)))
    (source_db : String) : List CompiledRule :=
  let db_keys := [source_db, strLower source_db, strUpper source_db]
  match db_keys.find? (fun k => (dbms_specific_rules.lookup k).isSome) with
  | none => []
  | some db_key =>
    match dbms_specific_rules.lookup db_key with
    | some (some rules_list) => rules_list.map (fun r => compile_rule lib r "dbms_specific" db_key)
    | _ => []

end Structural

/-! ### Conversion scoring engine (`SQLConversionScoringEngine`) -/

namespace Conversion

structure RuleMatch where
  rule_id : String
  rule_name : String
  weight : Int
  conversion_grade : String
  category : String
  subcategory : String
  match_count : Nat := 1
  matched_patterns : List String := []

/-- A compiled rule dict as produced by `_compile_patterns`. -/
structure CompiledRule where
  id : String
  name : String
  weight : Int
  conversion_grade : String
  detection_method : String
  pattern : String
  logic : String
  category : String
  subcategory : String
  group : String
  note : String
  compiled_pattern : Option Matcher

def rmScore (r : RuleMatch) : ℚ :=
  (r.weight : ℚ) * (r.match_count : ℚ)

def GRADE_COEFFICIENTS : List (String × ℚ) :=
  [("A", 1/2), ("P", 1), ("M", 3/2)]

/-- `self.GRADE_COEFFICIENTS.get(r.conversion_grade, 1.0)`. -/
def gradeCoef (grade : String) : ℚ :=
  (GRADE_COEFFICIENTS.lookup grade).getD 1

def COMPLEXITY_LEVELS : List (String × ℚ × Option ℚ) :=
  [("매우 낮음", 0, some 10), ("낮음", 10, some 30), ("중간", 30, some 60),
   ("높음", 60, some 100), ("매우 높음", 100, none)]

/-- `_get_complexity_level`: first band with `min <= score < max`
(`none` standing for `float('inf')`), the highest label as fall-through. -/
def get_complexity_level (score : ℚ) : String :=
  match COMPLEXITY_LEVELS.find? (fun lv =>
      decide (lv.2.1 ≤ score) &&
        match lv.2.2 with
        | some mx => decide (score < mx)
        | none => true) with
  | some lv => lv.1
  | none => "매우 높음"

/-- The per-rule loop of `score_query`. -/
def ruleMatchesOf (rules : List CompiledRule) (preprocessed_sql : String) : List RuleMatch :=
  rules.filterMap (fun rule =>
    match rule.compiled_pattern with
    | none => none
    | some p =>
      let mc := (count_pattern_matches preprocessed_sql p).1
      let mp := (count_pattern_matches preprocessed_sql p).2
      if mc > 0 then
        some ⟨rule.id, rule.name, rule.weight, rule.conversion_grade,
              rule.category, rule.subcategory, mc, mp⟩
      else none)

structure QueryScore where
  query_name : String
  sql : String
  raw_score : ℚ
  weighted_score : ℚ
  complexity_level : String
  matched_rules : List RuleMatch
  grade_summary : String → Nat

/-- `SQLConversionScoringEngine.score_query`: `compiled_patterns` is the
engine's flat applicable-rule list. The `grade_summary` dict has exactly
the keys `A`, `P`, `M`; increments happen only for grades among them. -/
def score_query (compiled_patterns : List CompiledRule) (sql : String)
    (query_name : String := "") : QueryScore :=
  let preprocessed_sql := preprocess_sql sql
  let matched_rules := ruleMatchesOf compiled_patterns preprocessed_sql
  let grade_summary : String → Nat := fun g =>
    if g = "A" ∨ g = "P" ∨ g = "M" then
      ((matched_rules.filter (fun r => r.conversion_grade = g)).map (·.match_count)).sum
    else 0
  let raw_score := (matched_rules.map rmScore).sum
  let weighted_score :=
    (matched_rules.map (fun r => rmScore r * gradeCoef r.conversion_grade)).sum
  let complexity_level := get_complexity_level weighted_score
  { query_name := query_name
    sql := if sql.length > 500 then (⟨sql.data.take 500⟩ : String) ++ "..." else sql
    raw_score := raw_score
    weighted_score := round2 weighted_score
    complexity_level := complexity_level
    matched_rules := matched_rules
    grade_summary := grade_summary }

structure FileScore where
  file_name : String
  file_path : String
  query_count : Nat
  total_raw_score : ℚ
  total_weighted_score : ℚ
  avg_score : ℚ
  complexity_distribution : String → Nat
  queries : List QueryScore

/-- `SQLConversionScoringEngine.analyze_file`. -/
def analyze_file (compiled_patterns : List CompiledRule) (file_data : FileData) : FileScore :=
  let query_scores := file_data.queries.filterMap (fun query =>
    let query_name := query.name.getD (query.type.getD "unknown")
    let sql := query.sql.getD ""
    if sql = "" then none
    else some (score_query compiled_patterns sql query_name))
  let total_raw := (query_scores.map (·.raw_score)).sum
  let total_weighted := (query_scores.map (·.weighted_score)).sum
  let avg_score := if query_scores.length = 0 then 0 else total_weighted / query_scores.length
  { file_name := file_data.file_name.getD ""
    file_path := file_data.file_path.getD ""
    query_count := query_scores.length
    total_raw_score := round2 total_raw
    total_weighted_score := round2 total_weighted
    avg_score := round2 avg_score
    complexity_distribution := fun lvl =>
      (query_scores.filter (fun q => q.complexity_level = lvl)).length
    queries := query_scores }

structure Summary where
  total_queries : Nat
  total_weighted_score : ℚ
  average_score : ℚ
  overall_complexity_level : String
  complexity_distribution : String → Nat
  grade_distribution : String → Nat

structure AnalysisResult where
  summary : Summary
  files : List FileScore

/-- `_calculate_grade_distribution`. -/
def calculate_grade_distribution (files : List FileScore) : String → Nat :=
  fun g =>
    if g = "A" ∨ g = "P" ∨ g = "M" then
      (files.map (fun f => (f.queries.map (fun q => q.grade_summary g)).sum)).sum
    else 0

/-- `SQLConversionScoringEngine.analyze_json_files` on already-parsed data. -/
def analyze_json_files (compiled_patterns : List CompiledRule)
    (datas : List (List FileData)) : AnalysisResult :=
  let all_files := (datas.map (fun files => files.map (analyze_file compiled_patterns))).flatten
  let total_queries : Nat := (all_files.map (·.query_count)).sum
  let total_score := (all_files.map (·.total_weighted_score)).sum
  let avg_score := if total_queries > 0 then total_score / (total_queries : ℚ) else 0
  { summary :=
      { total_queries := total_queries
        total_weighted_score := round2 total_score
        average_score := round2 avg_score
        overall_complexity_level := get_complexity_level avg_score
        complexity_distribution := fun lvl =>
          (all_files.map (fun f => f.complexity_distribution lvl)).sum
        grade_distribution := calculate_grade_distribution all_files }
    files := all_files }

end Conversion

/-! ### Derived definitions used by the verification statements -/

/-- Whether `p` holds of some suffix of the list (i.e. a match of the
corresponding pattern starts at some position). -/
def anySuffix (p : List Char → Bool) : List Char → Bool
  | [] => p []
  | c :: cs => p (c :: cs) || anySuffix p cs

/-- No preprocessing substitution has a match anywhere in `l`: no CDATA
section, no opening or closing templating tag, no `#`/`$` placeholder. -/
def noSubTriggers (l : List Char) : Bool :=
  !(anySuffix (fun s => (cdataAt s).isSome) l)
    && !(anySuffix (fun s => (openTagAt s).isSome) l)
    && !(anySuffix (fun s => (closeTagAt s).isSome) l)
    && !(anySuffix (fun s => (paramAt '#' s).isSome) l)
    && !(anySuffix (fun s => (paramAt '$' s).isSome) l)

/-- Every whitespace character is a plain space and no two whitespace
characters are adjacent (the shape of `re.sub(r'\s+', ' ', _)` output). -/
def wsFlat : List Char → Bool
  | [] => true
  | [c] => !isPySpace c || c = ' '
  | c :: d :: rest => (!isPySpace c || (c = ' ' && !isPySpace d)) && wsFlat (d :: rest)

/-- Per-rule contribution to the structural raw score: inert rules
(compiled pattern `None`) and rules with zero matches contribute 0. -/
def Structural.ruleContrib (preprocessed_sql : String) (r : Structural.CompiledRule) : ℚ :=
  match r.compiled_pattern with
  | none => 0
  | some p =>
    let c := (count_pattern_matches preprocessed_sql p).1
    if 0 < c then (r.weight : ℚ) * (c : ℚ) else 0

/-- Per-rule contribution to the conversion raw score. -/
def Conversion.ruleContrib (preprocessed_sql : String) (r : Conversion.CompiledRule) : ℚ :=
  match r.compiled_pattern with
  | none => 0
  | some p =>
    let c := (count_pattern_matches preprocessed_sql p).1
    if 0 < c then (r.weight : ℚ) * (c : ℚ) else 0

/-- Compilation of one dialect section under its key: the rules of a list
section, nothing for a non-list section. -/
def Structural.sectionCompile (lib : Structural.RegexLib) (key : String) :
    Option (List Structural.RawRule) → List Structural.CompiledRule
  | some rules_list => rules_list.map (fun r => Structural.compile_rule lib r "dbms_specific" key)
  | none => []

/-- A regex library model in which every compilation fails (all rules
inert); used only to instantiate universally quantified statements. -/
def noRegexLib : Structural.RegexLib :=
  ⟨fun _ => none, fun _ => none⟩

def sampleRawRule : Structural.RawRule :=
  { id := "r1", name := "rule one", weight := 3 }

def sampleRawRule2 : Structural.RawRule :=
  { id := "r2", name := "rule two", weight := 7 }

/-- A dialect-section mapping holding the same dialect under two casings. -/
def sampleDbmsRules : List (String × Option (List Structural.RawRule)) :=
  [("ORA", some [sampleRawRule]), ("ora", some [sampleRawRule2])]

/-- A file record whose two queries both lack usable SQL (one missing,
one empty). -/
def emptyQueryFile : FileData :=
  { file_name := some "f"
    file_path := some "p"
    queries :=
      [{ name := some "q1", type := none, sql := none },
       { name := none, type := some "t", sql := some "" }] }

/-- The scoreability test of `analyze_file`: the query's SQL (defaulting to
the empty string) is non-empty. -/
def hasSql (q : QueryRecord) : Bool :=
  q.sql.getD "" ≠ ""

/-! ### Theorems -/

theorem dropWhile_length_le (p : Char → Bool) (l : List Char) :
    (l.dropWhile p).length ≤ l.length :=
  (List.dropWhile_suffix p).sublist.length_le

/-- Claim C2 (counterexample): on
`WHERE a=1 AND b=2 AND c IN (SELECT x FROM y WHERE p=1 AND q=2)` the
structural metrics computation does not return `where_condition_count = 2`. -/
theorem C2_counterexample :
    ¬ ((calculate_metrics "WHERE a=1 AND b=2 AND c IN (SELECT x FROM y WHERE p=1 AND q=2)").where_condition_count = 2) := by
  decide

/-- Claim C2 (amended): on the claim's input the structural metrics
computation returns `where_condition_count = 3` (the two top-level `AND`s
plus one); the `AND` inside the subquery is indeed not counted — deleting
`AND q=2` from the subquery leaves the count unchanged at 3. -/
theorem C2_where_condition_count :
    (calculate_metrics "WHERE a=1 AND b=2 AND c IN (SELECT x FROM y WHERE p=1 AND q=2)").where_condition_count = 3
      ∧ (calculate_metrics "WHERE a=1 AND b=2 AND c IN (SELECT x FROM y WHERE p=1)").where_condition_count = 3 :=
  ⟨by decide, by decide⟩

theorem depthScan_nonneg (l : List Char) :
    ∀ cur mx : Int, 0 ≤ mx → 0 ≤ depthScan l cur mx := by
  induction l with
  | nil => intro cur mx h; simpa [depthScan] using h
  | cons c cs ih =>
    intro cur mx h
    simp only [depthScan]
    split
    · exact ih _ _ (le_trans h (le_max_left _ _))
    · split
      · exact ih _ _ h
      · exact ih _ _ h

/-- Claim C4: for every input string the `subquery_depth` metric is
non-negative and at most 5. -/
theorem C4_subquery_depth_bounds (s : String) :
    0 ≤ (calculate_metrics s).subquery_depth ∧ (calculate_metrics s).subquery_depth ≤ 5 := by
  have h : (calculate_metrics s).subquery_depth = min (depthScan s.data 0 0) 5 := rfl
  rw [h]
  exact ⟨le_min (depthScan_nonneg _ 0 0 le_rfl) (by norm_num), min_le_right _ _⟩

/-- Claim C5: the top-level select-column counter returns the sentinel `-1`
for `SELECT * FROM t` and `SELECT t.* FROM t`, and `4` for
`SELECT a, b, f(x,y), c FROM t` (the function-call comma is masked). -/
theorem C5_select_column_count :
    (calculate_metrics "SELECT * FROM t").select_column_count = -1
      ∧ (calculate_metrics "SELECT t.* FROM t").select_column_count = -1
      ∧ (calculate_metrics "SELECT a, b, f(x,y), c FROM t").select_column_count = 4 :=
  ⟨by decide, by decide, by decide⟩

set_option maxRecDepth 4000 in
/-- Claim C8 (counterexample): for a 501-character SQL string the stored
`sql` of the resulting `QueryScore` is longer than 500 characters in both
variants (it is the 500-character prefix plus `...`, i.e. 503 characters). -/
theorem C8_counterexample :
    ¬ ((Structural.score_query [] [] (String.mk (List.replicate 501 'a')) "").sql.length ≤ 500
        ∧ (Conversion.score_query [] (String.mk (List.replicate 501 'a')) "").sql.length ≤ 500) := by
  decide

/-- Claim C8 (amended): for every scored query the stored `sql` is the
original SQL when it has at most 500 characters, and otherwise its first
500 characters followed by `...` — 503 characters in total. -/
theorem C8_sql_truncation (common dbms : List Structural.CompiledRule)
    (conv : List Conversion.CompiledRule) (sql name : String) :
    (sql.length ≤ 500 →
        (Structural.score_query common dbms sql name).sql = sql
          ∧ (Conversion.score_query conv sql name).sql = sql)
    ∧ (500 < sql.length →
        (Structural.score_query common dbms sql name).sql = (⟨sql.data.take 500⟩ : String) ++ "..."
          ∧ (Conversion.score_query conv sql name).sql = (⟨sql.data.take 500⟩ : String) ++ "..."
          ∧ (Structural.score_query common dbms sql name).sql.length = 503) := by
  have hS : (Structural.score_query common dbms sql name).sql
      = if sql.length > 500 then (⟨sql.data.take 500⟩ : String) ++ "..." else sql := rfl
  have hC : (Conversion.score_query conv sql name).sql
      = if sql.length > 500 then (⟨sql.data.take 500⟩ : String) ++ "..." else sql := rfl
  constructor
  · intro h
    have hn : ¬ (sql.length > 500) := by omega
    exact ⟨by rw [hS, if_neg hn], by rw [hC, if_neg hn]⟩
  · intro h
    have hp : sql.length > 500 := h
    have hlen : ((⟨sql.data.take 500⟩ : String) ++ "...").length = 503 := by
      show (sql.data.take 500 ++ "...".data).length = 503
      have hd : 500 < sql.data.length := h
      simp [List.length_append, List.length_take]
      omega
    exact ⟨by rw [hS, if_pos hp], by rw [hC, if_pos hp],
      by rw [hS, if_pos hp]; exact hlen⟩

set_option maxRecDepth 4000 in
/-- Witness for `C8_sql_truncation` at a short and a long concrete input. -/
theorem C8_sql_truncation_witness :
    (Structural.score_query [] [] "q" "").sql = "q"
      ∧ (Conversion.score_query [] "q" "").sql = "q"
      ∧ (Structural.score_query [] [] (String.mk (List.replicate 501 'a')) "").sql.length = 503 :=
  ⟨((C8_sql_truncation [] [] [] "q" "").1 (by decide)).1,
   ((C8_sql_truncation [] [] [] "q" "").1 (by decide)).2,
   ((C8_sql_truncation [] [] [] (String.mk (List.replicate 501 'a')) "").2 (by decide)).2.2⟩

/-- Claim C10: both classifiers are total functions, and every score in no
band — in particular every negative score — gets the highest band label
(the fall-through value), not the lowest; for the structural variant the
same holds at and above the top edge 10. -/
theorem C10_classifier_fallthrough (score : ℚ) :
    (score < 0 →
        Structural.get_complexity_level score = "매우 복잡"
          ∧ Conversion.get_complexity_level score = "매우 높음")
    ∧ (10 ≤ score → Structural.get_complexity_level score = "매우 복잡") := by
  constructor
  · intro h
    have h0 : ¬ ((0 : ℚ) ≤ score) := not_le.mpr h
    have hs : ∀ m : ℚ, 0 ≤ m → ¬ (m ≤ score) := fun m hm hle => h0 (le_trans hm hle)
    constructor
    · simp [Structural.get_complexity_level, Structural.COMPLEXITY_LEVELS, List.find?,
        hs 0 le_rfl, hs 2 (by norm_num), hs 4 (by norm_num), hs 6 (by norm_num),
        hs 8 (by norm_num)]
    · simp [Conversion.get_complexity_level, Conversion.COMPLEXITY_LEVELS, List.find?,
        hs 0 le_rfl, hs 10 (by norm_num), hs 30 (by norm_num), hs 60 (by norm_num),
        hs 100 (by norm_num)]
  · intro h
    have hlt : ∀ m : ℚ, m ≤ 10 → ¬ (score < m) :=
      fun m hm hsc => absurd (lt_of_lt_of_le hsc hm) (not_lt.mpr h)
    simp [Structural.get_complexity_level, Structural.COMPLEXITY_LEVELS, List.find?,
      hlt 2 (by norm_num), hlt 4 (by norm_num), hlt 6 (by norm_num), hlt 8 (by norm_num),
      hlt 10 (by norm_num)]

/-- Witness for `C10_classifier_fallthrough` at the scores -1 and 11. -/
theorem C10_classifier_fallthrough_witness :
    Structural.get_complexity_level (-1) = "매우 복잡"
      ∧ Conversion.get_complexity_level (-1) = "매우 높음"
      ∧ Structural.get_complexity_level 11 = "매우 복잡" :=
  ⟨((C10_classifier_fallthrough (-1)).1 (by norm_num)).1,
   ((C10_classifier_fallthrough (-1)).1 (by norm_num)).2,
   (C10_classifier_fallthrough 11).2 (by norm_num)⟩

/-- Claim C9: DBMS-specific rule compilation tries the exact, lower-cased,
then upper-cased dialect token as section keys, compiles only the first
section found and stops there; when no casing is present it compiles
nothing — never a union across casings. -/
theorem C9_dbms_first_section (lib : Structural.RegexLib)
    (rules : List (String × Option (List Structural.RawRule))) (src : String) :
    (∀ v, rules.lookup src = some v →
        Structural.compile_dbms_rules lib rules src = Structural.sectionCompile lib src v)
    ∧ (rules.lookup src = none → ∀ v, rules.lookup (strLower src) = some v →
        Structural.compile_dbms_rules lib rules src = Structural.sectionCompile lib (strLower src) v)
    ∧ (rules.lookup src = none → rules.lookup (strLower src) = none →
        ∀ v, rules.lookup (strUpper src) = some v →
        Structural.compile_dbms_rules lib rules src = Structural.sectionCompile lib (strUpper src) v)
    ∧ (rules.lookup src = none → rules.lookup (strLower src) = none →
        rules.lookup (strUpper src) = none →
        Structural.compile_dbms_rules lib rules src = []) := by
  refine ⟨?_, ?_, ?_, ?_⟩
  · intro v hv
    have e1 : (List.lookup src rules).isSome = true := by rw [hv]; rfl
    have key : List.find? (fun k => (List.lookup k rules).isSome) [src, strLower src, strUpper src]
        = some src :=
      List.find?_cons_of_pos _ e1
    simp only [Structural.compile_dbms_rules, key, hv]
    cases v <;> rfl
  · intro h0 v hv
    have e0 : (List.lookup src rules).isSome = false := by rw [h0]; rfl
    have e1 : (List.lookup (strLower src) rules).isSome = true := by rw [hv]; rfl
    have key : List.find? (fun k => (List.lookup k rules).isSome) [src, strLower src, strUpper src]
        = some (strLower src) := by
      rw [List.find?_cons_of_neg _ (by simp [e0])]
      exact List.find?_cons_of_pos _ e1
    simp only [Structural.compile_dbms_rules, key, hv]
    cases v <;> rfl
  · intro h0 h1 v hv
    have e0 : (List.lookup src rules).isSome = false := by rw [h0]; rfl
    have e1 : (List.lookup (strLower src) rules).isSome = false := by rw [h1]; rfl
    have e2 : (List.lookup (strUpper src) rules).isSome = true := by rw [hv]; rfl
    have key : List.find? (fun k => (List.lookup k rules).isSome) [src, strLower src, strUpper src]
        = some (strUpper src) := by
      rw [List.find?_cons_of_neg _ (by simp [e0]), List.find?_cons_of_neg _ (by simp [e1])]
      exact List.find?_cons_of_pos _ e2
    simp only [Structural.compile_dbms_rules, key, hv]
    cases v <;> rfl
  · intro h0 h1 h2
    have e0 : (List.lookup src rules).isSome = false := by rw [h0]; rfl
    have e1 : (List.lookup (strLower src) rules).isSome = false := by rw [h1]; rfl
    have e2 : (List.lookup (strUpper src) rules).isSome = false := by rw [h2]; rfl
    have key : List.find? (fun k => (List.lookup k rules).isSome) [src, strLower src, strUpper src]
        = none := by
      rw [List.find?_cons_of_neg _ (by simp [e0]), List.find?_cons_of_neg _ (by simp [e1]),
        List.find?_cons_of_neg _ (by simp [e2])]
      rfl
    simp only [Structural.compile_dbms_rules, key]

/-- Witness for `C9_dbms_first_section`: with sections `ORA` and `ora` both
present, the token `ORA` selects only the `ORA` section, and the token
`Ora` (absent exactly) falls back to its lower-casing `ora` only. -/
theorem C9_dbms_first_section_witness :
    Structural.compile_dbms_rules noRegexLib sampleDbmsRules "ORA"
        = Structural.sectionCompile noRegexLib "ORA" (some [sampleRawRule])
      ∧ Structural.compile_dbms_rules noRegexLib sampleDbmsRules "Ora"
        = Structural.sectionCompile noRegexLib (strLower "Ora") (some [sampleRawRule2]) :=
  ⟨(C9_dbms_first_section noRegexLib sampleDbmsRules "ORA").1 (some [sampleRawRule]) (by decide),
   (C9_dbms_first_section noRegexLib sampleDbmsRules "Ora").2.1 (by decide)
     (some [sampleRawRule2]) (by decide)⟩

/-- Claim C6 (counterexample): the structural normalized score is not
clamped below — a negative per-category raw score yields a negative
normalized score, outside `[0, 10]`. -/
theorem C6_counterexample :
    Structural.calculate_normalized_score (fun c => if c = "structural" then -100 else 0) < 0 := by
  have e : Structural.calculate_normalized_score (fun c => if c = "structural" then -100 else 0)
      = min ((-100 : ℚ) / 100 * 10) 10 * (30 / 100)
        + (min ((0 : ℚ) / 50 * 10) 10 * (15 / 100)
        + (min ((0 : ℚ) / 80 * 10) 10 * (20 / 100)
        + (min ((0 : ℚ) / 40 * 10) 10 * (10 / 100)
        + (min ((0 : ℚ) / 100 * 10) 10 * (25 / 100) + 0)))) := rfl
  rw [e]
  norm_num [min_def]

theorem minTerm_bounds (x m : ℚ) (hx : 0 ≤ x) (hm : 0 < m) :
    0 ≤ min (x / m * 10) 10 ∧ min (x / m * 10) 10 ≤ 10 :=
  ⟨le_min (by positivity) (by norm_num), min_le_right _ _⟩

/-- Claim C6 (amended): for every assignment of non-negative per-category
raw scores, the structural normalized score lies in `[0, 10]`: each
category is divided by its fixed maximum, scaled by 10, clamped to 10, and
combined with the fixed weights 0.30, 0.15, 0.20, 0.10, 0.25 summing to 1. -/
theorem C6_normalized_range (category_scores : String → ℚ)
    (h : ∀ c, 0 ≤ category_scores c) :
    0 ≤ Structural.calculate_normalized_score category_scores
      ∧ Structural.calculate_normalized_score category_scores ≤ 10 := by
  have e : Structural.calculate_normalized_score category_scores
      = min (category_scores "structural" / 100 * 10) 10 * (30 / 100)
        + (min (category_scores "clause" / 50 * 10) 10 * (15 / 100)
        + (min (category_scores "function_expression" / 80 * 10) 10 * (20 / 100)
        + (min (category_scores "query_metric" / 40 * 10) 10 * (10 / 100)
        + (min (category_scores "dbms_specific" / 100 * 10) 10 * (25 / 100) + 0)))) := rfl
  obtain ⟨a1, b1⟩ := minTerm_bounds (category_scores "structural") 100 (h _) (by norm_num)
  obtain ⟨a2, b2⟩ := minTerm_bounds (category_scores "clause") 50 (h _) (by norm_num)
  obtain ⟨a3, b3⟩ := minTerm_bounds (category_scores "function_expression") 80 (h _) (by norm_num)
  obtain ⟨a4, b4⟩ := minTerm_bounds (category_scores "query_metric") 40 (h _) (by norm_num)
  obtain ⟨a5, b5⟩ := minTerm_bounds (category_scores "dbms_specific") 100 (h _) (by norm_num)
  rw [e]
  constructor <;> nlinarith [a1, a2, a3, a4, a5, b1, b2, b3, b4, b5]

/-- Witness for `C6_normalized_range` at the all-zero assignment. -/
theorem C6_normalized_range_witness :
    0 ≤ Structural.calculate_normalized_score (fun _ => 0)
      ∧ Structural.calculate_normalized_score (fun _ => 0) ≤ 10 :=
  C6_normalized_range (fun _ => 0) (fun _ => le_rfl)

theorem struct_ruleMatchesOf_sum (rules : List Structural.CompiledRule) (s : String) :
    ((Structural.ruleMatchesOf rules s).map Structural.rmScore).sum
      = (rules.map (Structural.ruleContrib s)).sum := by
  simp only [Structural.ruleMatchesOf]
  induction rules with
  | nil => rfl
  | cons r rs ih =>
    simp only [List.filterMap_cons, List.map_cons, List.sum_cons]
    cases hp : r.compiled_pattern with
    | none =>
      simp only [Structural.ruleContrib, hp]
      simpa using ih
    | some p =>
      by_cases hc : 0 < (count_pattern_matches s p).1
      · simp only [Structural.ruleContrib, hp, if_pos hc, gt_iff_lt, List.map_cons,
          List.sum_cons, ih]
        rfl
      · simp only [Structural.ruleContrib, hp, if_neg hc, gt_iff_lt, ih]
        rw [zero_add]

theorem conv_ruleMatchesOf_sum (rules : List Conversion.CompiledRule) (s : String) :
    ((Conversion.ruleMatchesOf rules s).map Conversion.rmScore).sum
      = (rules.map (Conversion.ruleContrib s)).sum := by
  simp only [Conversion.ruleMatchesOf]
  induction rules with
  | nil => rfl
  | cons r rs ih =>
    simp only [List.filterMap_cons, List.map_cons, List.sum_cons]
    cases hp : r.compiled_pattern with
    | none =>
      simp only [Conversion.ruleContrib, hp]
      simpa using ih
    | some p =>
      by_cases hc : 0 < (count_pattern_matches s p).1
      · simp only [Conversion.ruleContrib, hp, if_pos hc, gt_iff_lt, List.map_cons,
          List.sum_cons, ih]
        rfl
      · simp only [Conversion.ruleContrib, hp, if_neg hc, gt_iff_lt, ih]
        rw [zero_add]

/-- Claim C1: in both variants the `raw_score` of a scored query equals the
sum of `weight * match_count` over the returned matched rules, and equals
the direct per-rule contribution sum over the input rule lists in which
inert rules (compiled pattern `None`) and zero-match rules contribute
nothing (plus, in the structural variant, the synthetic metric rules). -/
theorem C1_raw_score_sum (conv : List Conversion.CompiledRule)
    (common dbms : List Structural.CompiledRule) (sql name : String) :
    ((Conversion.score_query conv sql name).raw_score
        = (((Conversion.score_query conv sql name).matched_rules).map Conversion.rmScore).sum
      ∧ (Conversion.score_query conv sql name).raw_score
        = (conv.map (Conversion.ruleContrib (preprocess_sql sql))).sum)
    ∧ ((Structural.score_query common dbms sql name).raw_score
        = (((Structural.score_query common dbms sql name).matched_rules).map Structural.rmScore).sum
      ∧ (Structural.score_query common dbms sql name).raw_score
        = ((Structural.apply_metric_rules (calculate_metrics (preprocess_sql sql))).map Structural.rmScore).sum
          + (common.map (Structural.ruleContrib (preprocess_sql sql))).sum
          + (dbms.map (Structural.ruleContrib (preprocess_sql sql))).sum) := by
  refine ⟨⟨rfl, ?_⟩, ⟨rfl, ?_⟩⟩
  · exact conv_ruleMatchesOf_sum conv (preprocess_sql sql)
  · show ((Structural.apply_metric_rules (calculate_metrics (preprocess_sql sql))
        ++ Structural.ruleMatchesOf common (preprocess_sql sql)
        ++ Structural.ruleMatchesOf dbms (preprocess_sql sql)).map Structural.rmScore).sum = _
    rw [List.map_append, List.map_append, List.sum_append, List.sum_append,
      struct_ruleMatchesOf_sum, struct_ruleMatchesOf_sum]

theorem round2_zero : round2 0 = 0 := by
  have h : roundHalfEven 0 = 0 := by simp [roundHalfEven]
  simp [round2, h]

theorem struct_scores_eq_filter (common dbms : List Structural.CompiledRule)
    (queries : List QueryRecord) :
    (queries.filterMap (fun query =>
        if query.sql.getD "" = "" then none
        else some (Structural.score_query common dbms (query.sql.getD "")
          (query.name.getD (query.type.getD "unknown")))))
      = (queries.filter hasSql).map (fun query =>
          Structural.score_query common dbms (query.sql.getD "")
            (query.name.getD (query.type.getD "unknown"))) := by
  induction queries with
  | nil => rfl
  | cons q qs ih =>
    by_cases h : q.sql.getD "" = ""
    · simp [List.filterMap_cons, List.filter_cons, hasSql, h, ih]
    · simp [List.filterMap_cons, List.filter_cons, hasSql, h, ih]

theorem conv_scores_eq_filter (conv : List Conversion.CompiledRule)
    (queries : List QueryRecord) :
    (queries.filterMap (fun query =>
        if query.sql.getD "" = "" then none
        else some (Conversion.score_query conv (query.sql.getD "")
          (query.name.getD (query.type.getD "unknown")))))
      = (queries.filter hasSql).map (fun query =>
          Conversion.score_query conv (query.sql.getD "")
            (query.name.getD (query.type.getD "unknown"))) := by
  induction queries with
  | nil => rfl
  | cons q qs ih =>
    by_cases h : q.sql.getD "" = ""
    · simp [List.filterMap_cons, List.filter_cons, hasSql, h, ih]
    · simp [List.filterMap_cons, List.filter_cons, hasSql, h, ih]

theorem struct_analyze_file_filter (common dbms : List Structural.CompiledRule)
    (fd : FileData) :
    Structural.analyze_file common dbms fd
      = Structural.analyze_file common dbms { fd with queries := fd.queries.filter hasSql } := by
  simp only [Structural.analyze_file, struct_scores_eq_filter, List.filter_filter,
    Bool.and_self]

theorem conv_analyze_file_filter (conv : List Conversion.CompiledRule) (fd : FileData) :
    Conversion.analyze_file conv fd
      = Conversion.analyze_file conv { fd with queries := fd.queries.filter hasSql } := by
  simp only [Conversion.analyze_file, conv_scores_eq_filter, List.filter_filter,
    Bool.and_self]

theorem struct_query_count_filter (common dbms : List Structural.CompiledRule)
    (fd : FileData) :
    (Structural.analyze_file common dbms fd).query_count
      = (fd.queries.filter hasSql).length := by
  have e : (Structural.analyze_file common dbms fd).query_count
      = (fd.queries.filterMap (fun query =>
          if query.sql.getD "" = "" then none
          else some (Structural.score_query common dbms (query.sql.getD "")
            (query.name.getD (query.type.getD "unknown"))))).length := rfl
  rw [e, struct_scores_eq_filter, List.length_map]

theorem conv_query_count_filter (conv : List Conversion.CompiledRule) (fd : FileData) :
    (Conversion.analyze_file conv fd).query_count
      = (fd.queries.filter hasSql).length := by
  have e : (Conversion.analyze_file conv fd).query_count
      = (fd.queries.filterMap (fun query =>
          if query.sql.getD "" = "" then none
          else some (Conversion.score_query conv (query.sql.getD "")
            (query.name.getD (query.type.getD "unknown"))))).length := rfl
  rw [e, conv_scores_eq_filter, List.length_map]

theorem struct_analyze_file_all_empty (common dbms : List Structural.CompiledRule)
    (fd : FileData) (h : ∀ q ∈ fd.queries, q.sql.getD "" = "") :
    (Structural.analyze_file common dbms fd).query_count = 0
      ∧ (Structural.analyze_file common dbms fd).avg_score = 0
      ∧ (Structural.analyze_file common dbms fd).avg_normalized_score = 0 := by
  have hf : fd.queries.filter hasSql = [] := by
    rw [List.filter_eq_nil_iff]
    intro q hq
    simp [hasSql, h q hq]
  rw [struct_analyze_file_filter, hf]
  exact ⟨rfl, round2_zero, round2_zero⟩

theorem conv_analyze_file_all_empty (conv : List Conversion.CompiledRule)
    (fd : FileData) (h : ∀ q ∈ fd.queries, q.sql.getD "" = "") :
    (Conversion.analyze_file conv fd).query_count = 0
      ∧ (Conversion.analyze_file conv fd).avg_score = 0 := by
  have hf : fd.queries.filter hasSql = [] := by
    rw [List.filter_eq_nil_iff]
    intro q hq
    simp [hasSql, h q hq]
  rw [conv_analyze_file_filter, hf]
  exact ⟨rfl, round2_zero⟩

theorem round2_guard_zero (T : Nat) (S : ℚ) (h : T = 0) :
    round2 (if T > 0 then S / (T : ℚ) else 0) = 0 := by
  subst h
  simp [round2_zero]

/-- Claim C7: queries with empty or missing SQL are skipped entirely — the
file analysis of both variants equals that of the file with those queries
removed, `query_count` counts only scoreable queries; a file with no
scoreable query has all its averages equal to 0, and a corpus with zero
scoreable queries yields all-zero summary averages (the division is
guarded, never taken). -/
theorem C7_empty_sql_skipped (common dbms : List Structural.CompiledRule)
    (conv : List Conversion.CompiledRule) (fd : FileData) (datas : List (List FileData)) :
    (Structural.analyze_file common dbms fd
        = Structural.analyze_file common dbms { fd with queries := fd.queries.filter hasSql }
      ∧ (Structural.analyze_file common dbms fd).query_count = (fd.queries.filter hasSql).length
      ∧ Conversion.analyze_file conv fd
        = Conversion.analyze_file conv { fd with queries := fd.queries.filter hasSql }
      ∧ (Conversion.analyze_file conv fd).query_count = (fd.queries.filter hasSql).length)
    ∧ ((∀ q ∈ fd.queries, q.sql.getD "" = "") →
        (Structural.analyze_file common dbms fd).query_count = 0
          ∧ (Structural.analyze_file common dbms fd).avg_score = 0
          ∧ (Structural.analyze_file common dbms fd).avg_normalized_score = 0
          ∧ (Conversion.analyze_file conv fd).query_count = 0
          ∧ (Conversion.analyze_file conv fd).avg_score = 0)
    ∧ ((∀ fl ∈ datas, ∀ fd2 ∈ fl, ∀ q ∈ fd2.queries, q.sql.getD "" = "") →
        (Structural.analyze_json_files common dbms datas).summary.total_queries = 0
          ∧ (Structural.analyze_json_files common dbms datas).summary.average_raw_score = 0
          ∧ (Structural.analyze_json_files common dbms datas).summary.average_normalized_score = 0
          ∧ (Conversion.analyze_json_files conv datas).summary.total_queries = 0
          ∧ (Conversion.analyze_json_files conv datas).summary.average_score = 0) := by
  refine ⟨⟨struct_analyze_file_filter common dbms fd,
      struct_query_count_filter common dbms fd,
      conv_analyze_file_filter conv fd,
      conv_query_count_filter conv fd⟩, ?_, ?_⟩
  · intro h
    obtain ⟨a, b, c⟩ := struct_analyze_file_all_empty common dbms fd h
    obtain ⟨d, e⟩ := conv_analyze_file_all_empty conv fd h
    exact ⟨a, b, c, d, e⟩
  · intro h
    have htS : ((datas.map (fun files =>
        files.map (Structural.analyze_file common dbms))).flatten.map
          (fun f => f.query_count)).sum = 0 := by
      apply List.sum_eq_zero
      intro x hx
      rw [List.mem_map] at hx
      obtain ⟨f, hf, rfl⟩ := hx
      rw [List.mem_flatten] at hf
      obtain ⟨sub, hsub, hfsub⟩ := hf
      rw [List.mem_map] at hsub
      obtain ⟨fl, hfl, rfl⟩ := hsub
      rw [List.mem_map] at hfsub
      obtain ⟨fd2, hfd2, rfl⟩ := hfsub
      exact (struct_analyze_file_all_empty common dbms fd2 (h fl hfl fd2 hfd2)).1
    have htC : ((datas.map (fun files =>
        files.map (Conversion.analyze_file conv))).flatten.map
          (fun f => f.query_count)).sum = 0 := by
      apply List.sum_eq_zero
      intro x hx
      rw [List.mem_map] at hx
      obtain ⟨f, hf, rfl⟩ := hx
      rw [List.mem_flatten] at hf
      obtain ⟨sub, hsub, hfsub⟩ := hf
      rw [List.mem_map] at hsub
      obtain ⟨fl, hfl, rfl⟩ := hsub
      rw [List.mem_map] at hfsub
      obtain ⟨fd2, hfd2, rfl⟩ := hfsub
      exact (conv_analyze_file_all_empty conv fd2 (h fl hfl fd2 hfd2)).1
    exact ⟨htS, round2_guard_zero _ _ htS, round2_guard_zero _ _ htS,
      htC, round2_guard_zero _ _ htC⟩

/-- Witness for `C7_empty_sql_skipped` on a concrete file whose two queries
have missing and empty SQL, and the corpus holding just that file. -/
theorem C7_empty_sql_skipped_witness :
    (Structural.analyze_file [] [] emptyQueryFile).query_count = 0
      ∧ (Structural.analyze_file [] [] emptyQueryFile).avg_score = 0
      ∧ (Structural.analyze_file [] [] emptyQueryFile).avg_normalized_score = 0
      ∧ (Conversion.analyze_file [] emptyQueryFile).query_count = 0
      ∧ (Conversion.analyze_file [] emptyQueryFile).avg_score = 0
      ∧ (Structural.analyze_json_files [] [] [[emptyQueryFile]]).summary.total_queries = 0
      ∧ (Structural.analyze_json_files [] [] [[emptyQueryFile]]).summary.average_raw_score = 0
      ∧ (Structural.analyze_json_files [] [] [[emptyQueryFile]]).summary.average_normalized_score = 0
      ∧ (Conversion.analyze_json_files [] [[emptyQueryFile]]).summary.total_queries = 0
      ∧ (Conversion.analyze_json_files [] [[emptyQueryFile]]).summary.average_score = 0 := by
  have h := C7_empty_sql_skipped [] [] [] emptyQueryFile [[emptyQueryFile]]
  obtain ⟨a, b, c, d, e⟩ := h.2.1 (by decide)
  obtain ⟨f, g, i, j, k⟩ := h.2.2 (by decide)
  exact ⟨a, b, c, d, e, f, g, i, j, k⟩

theorem anySuffix_cons (p : List Char → Bool) (c : Char) (cs : List Char) :
    anySuffix p (c :: cs) = (p (c :: cs) || anySuffix p cs) := rfl

theorem cdataSubGo_id (l : List Char)
    (h : anySuffix (fun s => (cdataAt s).isSome) l = false) : cdataSubGo l 0 = l := by
  induction l with
  | nil => rfl
  | cons c cs ih =>
    rw [anySuffix_cons, Bool.or_eq_false_iff] at h
    obtain ⟨h1, h2⟩ := h
    have hnone : cdataAt (c :: cs) = none := by
      cases hx : cdataAt (c :: cs) with
      | none => rfl
      | some v => rw [hx] at h1; simp at h1
    simp only [cdataSubGo, hnone]
    rw [ih h2]

theorem openTagSubGo_id (l : List Char)
    (h : anySuffix (fun s => (openTagAt s).isSome) l = false) : openTagSubGo l 0 = l := by
  induction l with
  | nil => rfl
  | cons c cs ih =>
    rw [anySuffix_cons, Bool.or_eq_false_iff] at h
    obtain ⟨h1, h2⟩ := h
    have hnone : openTagAt (c :: cs) = none := by
      cases hx : openTagAt (c :: cs) with
      | none => rfl
      | some v => rw [hx] at h1; simp at h1
    simp only [openTagSubGo, hnone]
    rw [ih h2]

theorem closeTagSubGo_id (l : List Char)
    (h : anySuffix (fun s => (closeTagAt s).isSome) l = false) : closeTagSubGo l 0 = l := by
  induction l with
  | nil => rfl
  | cons c cs ih =>
    rw [anySuffix_cons, Bool.or_eq_false_iff] at h
    obtain ⟨h1, h2⟩ := h
    have hnone : closeTagAt (c :: cs) = none := by
      cases hx : closeTagAt (c :: cs) with
      | none => rfl
      | some v => rw [hx] at h1; simp at h1
    simp only [closeTagSubGo, hnone]
    rw [ih h2]

theorem paramSubGo_id (mark : Char) (l : List Char)
    (h : anySuffix (fun s => (paramAt mark s).isSome) l = false) : paramSubGo mark l 0 = l := by
  induction l with
  | nil => rfl
  | cons c cs ih =>
    rw [anySuffix_cons, Bool.or_eq_false_iff] at h
    obtain ⟨h1, h2⟩ := h
    have hnone : paramAt mark (c :: cs) = none := by
      cases hx : paramAt mark (c :: cs) with
      | none => rfl
      | some v => rw [hx] at h1; simp at h1
    simp only [paramSubGo, hnone]
    rw [ih h2]

theorem drop_length_takeWhile (p : Char → Bool) (l : List Char) :
    l.drop (l.takeWhile p).length = l.dropWhile p := by
  induction l with
  | nil => rfl
  | cons c cs ih =>
    by_cases h : p c
    · simp [List.takeWhile_cons, List.dropWhile_cons, h, ih]
    · simp [List.takeWhile_cons, List.dropWhile_cons, h]

theorem squeezeWsGo_skip (l : List Char) : ∀ n, squeezeWsGo l n = squeezeWsGo (l.drop n) 0 := by
  induction l with
  | nil => intro n; cases n <;> rfl
  | cons c cs ih =>
    intro n
    cases n with
    | zero => rfl
    | succ m => simpa using ih m

theorem squeezeWs_cons (c : Char) (cs : List Char) :
    squeezeWs (c :: cs)
      = if isPySpace c then ' ' :: squeezeWs (cs.dropWhile isPySpace)
        else c :: squeezeWs cs := by
  simp only [squeezeWs, squeezeWsGo]
  split
  · rw [squeezeWsGo_skip, drop_length_takeWhile]
  · rfl

theorem head?_dropWhile (p : Char → Bool) (l : List Char) :
    ∀ c, (l.dropWhile p).head? = some c → p c = false := by
  induction l with
  | nil => intro c h; simp at h
  | cons a as ih =>
    intro c h
    rw [List.dropWhile_cons] at h
    split at h
    · exact ih c h
    · next hpa =>
      simp at h
      subst h
      simpa using hpa

theorem squeezeWs_head? (l : List Char) :
    (squeezeWs l).head? = l.head?.map (fun c => if isPySpace c then ' ' else c) := by
  cases l with
  | nil => rfl
  | cons c cs =>
    rw [squeezeWs_cons]
    by_cases h : isPySpace c
    · simp [h]
    · simp [h]

theorem wsFlat_tail (c : Char) (cs : List Char) (h : wsFlat (c :: cs) = true) :
    wsFlat cs = true := by
  cases cs with
  | nil => rfl
  | cons d ds =>
    simp only [wsFlat, Bool.and_eq_true] at h
    exact h.2

theorem squeezeWs_wsFlat : ∀ l : List Char, wsFlat (squeezeWs l) = true
  | [] => rfl
  | c :: cs => by
    rw [squeezeWs_cons]
    by_cases h : isPySpace c
    · rw [if_pos h]
      have hrec := squeezeWs_wsFlat (cs.dropWhile isPySpace)
      cases hr : squeezeWs (cs.dropWhile isPySpace) with
      | nil => decide
      | cons d ds =>
        have hd : isPySpace d = false := by
          have hh : (squeezeWs (cs.dropWhile isPySpace)).head? = some d := by rw [hr]; rfl
          rw [squeezeWs_head?] at hh
          cases hx : (cs.dropWhile isPySpace).head? with
          | none => rw [hx] at hh; simp at hh
          | some e =>
            rw [hx] at hh
            have he : isPySpace e = false := head?_dropWhile isPySpace cs e hx
            simp [he] at hh
            rw [← hh]
            exact he
        have ht : wsFlat (d :: ds) = true := by rw [← hr]; exact hrec
        simp [wsFlat, hd, ht]
    · rw [if_neg h]
      have hrec := squeezeWs_wsFlat cs
      cases hr : squeezeWs cs with
      | nil => simp [wsFlat, h]
      | cons d ds =>
        have ht : wsFlat (d :: ds) = true := by rw [← hr]; exact hrec
        simp [wsFlat, h, ht]
termination_by l => l.length
decreasing_by
  all_goals simp_all
  all_goals exact Nat.lt_succ_of_le (dropWhile_length_le _ _)

theorem wsFlat_dropWhile (p : Char → Bool) (l : List Char) (h : wsFlat l = true) :
    wsFlat (l.dropWhile p) = true := by
  induction l with
  | nil => rfl
  | cons c cs ih =>
    rw [List.dropWhile_cons]
    split
    · exact ih (wsFlat_tail c cs h)
    · exact h

theorem dropTrailWs_head? (l : List Char) :
    dropTrailWs l = [] ∨ (dropTrailWs l).head? = l.head? := by
  cases l with
  | nil => exact Or.inl rfl
  | cons c cs =>
    simp only [dropTrailWs]
    cases hr : dropTrailWs cs with
    | nil =>
      by_cases hc : isPySpace c
      · rw [if_pos hc]; exact Or.inl rfl
      · rw [if_neg hc]; exact Or.inr rfl
    | cons d ds => exact Or.inr rfl

theorem wsFlat_dropTrail (l : List Char) (h : wsFlat l = true) :
    wsFlat (dropTrailWs l) = true := by
  induction l with
  | nil => rfl
  | cons c cs ih =>
    have htail := wsFlat_tail c cs h
    simp only [dropTrailWs]
    cases hr : dropTrailWs cs with
    | nil =>
      by_cases hc : isPySpace c
      · rw [if_pos hc]; rfl
      · rw [if_neg hc]
        cases cs with
        | nil => exact h
        | cons d ds =>
          simp only [wsFlat, Bool.and_eq_true] at h
          simp [wsFlat, hc]
    | cons d ds =>
      have hih : wsFlat (d :: ds) = true := by rw [← hr]; exact ih htail
      have hhead : cs.head? = some d := by
        rcases dropTrailWs_head? cs with h1 | h1
        · rw [h1] at hr; cases hr
        · rw [hr] at h1; exact h1.symm
      cases cs with
      | nil => simp at hhead
      | cons d0 cs0 =>
        have hd0 : d0 = d := by simpa using hhead
        subst hd0
        have h1 : (!isPySpace c || (c = ' ' && !isPySpace d0)) = true := by
          simp only [wsFlat, Bool.and_eq_true] at h
          simpa using h.1
        simp only [wsFlat, Bool.and_eq_true]
        exact ⟨by simpa using h1, hih⟩

theorem squeezeWs_id (l : List Char) (h : wsFlat l = true) : squeezeWs l = l := by
  induction l with
  | nil => rfl
  | cons c cs ih =>
    rw [squeezeWs_cons]
    by_cases hc : isPySpace c
    · rw [if_pos hc]
      have hc' : c = ' ' := by
        cases cs with
        | nil => simpa [wsFlat, hc] using h
        | cons d ds =>
          have hconj : (!isPySpace c || (c = ' ' && !isPySpace d)) = true
              ∧ wsFlat (d :: ds) = true := by
            simpa only [wsFlat, Bool.and_eq_true] using h
          have h1 := hconj.1
          simp only [hc, Bool.not_true, Bool.false_or, Bool.and_eq_true,
            decide_eq_true_eq] at h1
          exact h1.1
      have hdw : cs.dropWhile isPySpace = cs := by
        cases cs with
        | nil => rfl
        | cons d ds =>
          have hconj : (!isPySpace c || (c = ' ' && !isPySpace d)) = true
              ∧ wsFlat (d :: ds) = true := by
            simpa only [wsFlat, Bool.and_eq_true] using h
          have h1 := hconj.1
          simp only [hc, Bool.not_true, Bool.false_or, Bool.and_eq_true,
            decide_eq_true_eq] at h1
          rw [List.dropWhile_cons, if_neg (by simpa using h1.2)]
      rw [hdw, ih (wsFlat_tail c cs h), hc']
    · rw [if_neg hc, ih (wsFlat_tail c cs h)]

theorem dropWhile_id_of_head (p : Char → Bool) (l : List Char)
    (h : ∀ c, l.head? = some c → p c = false) : l.dropWhile p = l := by
  cases l with
  | nil => rfl
  | cons c cs =>
    rw [List.dropWhile_cons, if_neg]
    simp [h c rfl]

theorem dropTrailWs_cons (c : Char) (cs : List Char) :
    dropTrailWs (c :: cs)
      = match dropTrailWs cs with
        | [] => if isPySpace c then [] else [c]
        | r => c :: r := rfl

theorem dropTrailWs_idem (l : List Char) : dropTrailWs (dropTrailWs l) = dropTrailWs l := by
  induction l with
  | nil => rfl
  | cons c cs ih =>
    rw [dropTrailWs_cons]
    cases hr : dropTrailWs cs with
    | nil =>
      by_cases hc : isPySpace c
      · rw [if_pos hc]; rfl
      · rw [if_neg hc]
        simp [dropTrailWs, hc]
    | cons d ds =>
      have hfix : dropTrailWs (d :: ds) = d :: ds := by rw [← hr]; exact ih
      show dropTrailWs (c :: d :: ds) = c :: d :: ds
      rw [dropTrailWs_cons, hfix]

theorem collapse_idem (u : List Char) :
    pyStrip (squeezeWs (pyStrip (squeezeWs u))) = pyStrip (squeezeWs u) := by
  have hwv : wsFlat (squeezeWs u) = true := squeezeWs_wsFlat u
  have hww : wsFlat ((squeezeWs u).dropWhile isPySpace) = true :=
    wsFlat_dropWhile _ _ hwv
  have hwt : wsFlat (dropTrailWs ((squeezeWs u).dropWhile isPySpace)) = true :=
    wsFlat_dropTrail _ hww
  have h1 : squeezeWs (dropTrailWs ((squeezeWs u).dropWhile isPySpace))
      = dropTrailWs ((squeezeWs u).dropWhile isPySpace) := squeezeWs_id _ hwt
  have hhead : ∀ c, (dropTrailWs ((squeezeWs u).dropWhile isPySpace)).head? = some c →
      isPySpace c = false := by
    intro c hc
    rcases dropTrailWs_head? ((squeezeWs u).dropWhile isPySpace) with h2 | h2
    · rw [h2] at hc; simp at hc
    · rw [h2] at hc
      exact head?_dropWhile isPySpace (squeezeWs u) c hc
  have h2 : (dropTrailWs ((squeezeWs u).dropWhile isPySpace)).dropWhile isPySpace
      = dropTrailWs ((squeezeWs u).dropWhile isPySpace) :=
    dropWhile_id_of_head _ _ hhead
  show dropTrailWs ((squeezeWs (dropTrailWs ((squeezeWs u).dropWhile isPySpace))).dropWhile isPySpace)
      = dropTrailWs ((squeezeWs u).dropWhile isPySpace)
  rw [h1, h2, dropTrailWs_idem]

/-- Claim C3 (counterexample): preprocessing is not idempotent on all
inputs — unwrapping the nested CDATA escape `<![CDATA[<![CDATA[x]]>]]>`
leaves `<![CDATA[x]]>`, which a second application rewrites to `x`. -/
theorem C3_counterexample :
    ¬ (preprocess_sql (preprocess_sql "<![CDATA[<![CDATA[x]]>]]>")
        = preprocess_sql "<![CDATA[<![CDATA[x]]>]]>") := by
  decide

/-- Claim C3 (amended): preprocessing is idempotent on every input whose
preprocessed output contains no residual substitution trigger (no CDATA
escape, templating tag, or `#`/`$` placeholder) — the whitespace collapse
and strip by themselves are always idempotent. Nested template constructs
whose unwrapping exposes a new trigger (e.g. nested CDATA) are the only
exceptions. -/
theorem C3_preprocess_idempotent (s : String)
    (h : noSubTriggers (preprocess_sql s).data = true) :
    preprocess_sql (preprocess_sql s) = preprocess_sql s := by
  have h' : ((((anySuffix (fun t => (cdataAt t).isSome) (preprocess_sql s).data = false
      ∧ anySuffix (fun t => (openTagAt t).isSome) (preprocess_sql s).data = false)
      ∧ anySuffix (fun t => (closeTagAt t).isSome) (preprocess_sql s).data = false)
      ∧ anySuffix (fun t => (paramAt '#' t).isSome) (preprocess_sql s).data = false)
      ∧ anySuffix (fun t => (paramAt '$' t).isSome) (preprocess_sql s).data = false) := by
    simpa only [noSubTriggers, Bool.and_eq_true, Bool.not_eq_true'] using h
  obtain ⟨⟨⟨⟨h1, h2⟩, h3⟩, h4⟩, h5⟩ := h'
  have key : preprocessList (preprocess_sql s).data
      = pyStrip (squeezeWs (preprocess_sql s).data) := by
    unfold preprocessList
    rw [show cdataSub (preprocess_sql s).data = (preprocess_sql s).data from
        cdataSubGo_id _ h1,
      show openTagSub (preprocess_sql s).data = (preprocess_sql s).data from
        openTagSubGo_id _ h2,
      show closeTagSub (preprocess_sql s).data = (preprocess_sql s).data from
        closeTagSubGo_id _ h3,
      show paramSub '#' (preprocess_sql s).data = (preprocess_sql s).data from
        paramSubGo_id '#' _ h4,
      show paramSub '$' (preprocess_sql s).data = (preprocess_sql s).data from
        paramSubGo_id '$' _ h5]
  have hfinal : pyStrip (squeezeWs (preprocess_sql s).data) = (preprocess_sql s).data := by
    show pyStrip (squeezeWs (pyStrip (squeezeWs
        (paramSub '$' (paramSub '#' (closeTagSub (openTagSub (cdataSub s.data))))))))
      = pyStrip (squeezeWs
        (paramSub '$' (paramSub '#' (closeTagSub (openTagSub (cdataSub s.data))))))
    exact collapse_idem _
  show (⟨preprocessList (preprocess_sql s).data⟩ : String) = preprocess_sql s
  rw [key, hfinal]

/-- Witness for `C3_preprocess_idempotent` on plain SQL (its preprocessed
output has no residual trigger). -/
theorem C3_preprocess_idempotent_witness :
    noSubTriggers (preprocess_sql "SELECT a FROM t WHERE x = 1").data = true
      ∧ preprocess_sql (preprocess_sql "SELECT a FROM t WHERE x = 1")
        = preprocess_sql "SELECT a FROM t WHERE x = 1" :=
  ⟨by decide, C3_preprocess_idempotent _ (by decide)⟩
